import Mathlib

/-!
Verification of the fixed-timestep player-physics core of the
geometry-dashing repository (src/script.js).

The authoritative implementation is the later `fixedPhysics` /
`updateCollisions` / `getHitbox` code (script.js lines 205-357) together
with the `MODES` table (lines 145-203); the earlier `Player.update`
(lines 10-141) is superseded per the design notes.

Embedding conventions:
* JavaScript numbers are modelled as `JSNum := Option ℚ`: `some q` is an
  ordinary (finite) number with exact rational value, `none` stands for
  NaN (and for the value of arithmetic on an `undefined` object field,
  which in JavaScript likewise produces NaN).  Binary arithmetic
  propagates `none`; comparisons involving `none` are `false`, exactly
  as NaN comparisons are in JavaScript.  Missing (undefined) `MODES`
  fields are modelled as `none`, which is faithful because the code only
  ever uses those fields arithmetically.  Infinities are not modelled:
  no expression reachable in the claims divides a nonzero number by
  zero (every division in `fixedPhysics` is `miniGravity/gravity`,
  `miniJump/jump`, `vx/14` or `min(holdTime,20)/20`, and the only zero
  denominator, spider gravity 0.0, occurs with an `undefined` = `none`
  numerator, which gives NaN in JavaScript and `none` here).
* Floating point is modelled by exact rational arithmetic (the spec
  itself demands the constants only "within float tolerance").
* Externals (`game.keys`, `game.speedMult`, `game.quadTree.query`,
  `Math.atan2`, `Math.sin`) are inputs in an `Env` record.  The
  transcendental functions are oracles: no claim constrains the
  rotation values they feed.  `game.addParticle` and `game.die` are
  fire-and-forget side effects with no influence on player state.
-/

/-- A JavaScript number: `none` models NaN (or arithmetic on undefined). -/
abbrev JSNum := Option ℚ

def jadd : JSNum → JSNum → JSNum
  | some a, some b => some (a + b)
  | _, _ => none

def jsub : JSNum → JSNum → JSNum
  | some a, some b => some (a - b)
  | _, _ => none

def jmul : JSNum → JSNum → JSNum
  | some a, some b => some (a * b)
  | _, _ => none

/-- Division; `x / 0` with finite nonzero `x` (JavaScript infinity) is
unreachable in the modelled code, see the header comment. -/
def jdiv : JSNum → JSNum → JSNum
  | some a, some b => if b = 0 then none else some (a / b)
  | _, _ => none

def jneg : JSNum → JSNum
  | some a => some (-a)
  | none => none

/-- Math.abs. -/
def jabs : JSNum → JSNum
  | some a => some |a|
  | none => none

/-- The JavaScript `<`: any comparison with NaN is false. -/
def jlt : JSNum → JSNum → Bool
  | some a, some b => decide (a < b)
  | _, _ => false

/-- The JavaScript `>`: any comparison with NaN is false. -/
def jgt : JSNum → JSNum → Bool
  | some a, some b => decide (a > b)
  | _, _ => false

/-- Math.min: NaN if either argument is NaN. -/
def jmin : JSNum → JSNum → JSNum
  | some a, some b => some (min a b)
  | _, _ => none

/-- Math.max: NaN if either argument is NaN. -/
def jmax : JSNum → JSNum → JSNum
  | some a, some b => some (max a b)
  | _, _ => none

/-- Truncation toward zero, as used by the JavaScript `%` operator. -/
def ratTrunc (q : ℚ) : ℤ := if q < 0 then -((-q).floor) else q.floor

/-- The JavaScript remainder `x % y`: same sign as the dividend `x`. -/
def ratRem (x y : ℚ) : ℚ := x - y * (ratTrunc (x / y) : ℚ)

/-- The JavaScript `%` on numbers: `x % 0` and NaN operands give NaN. -/
def jmod : JSNum → JSNum → JSNum
  | some a, some b => if b = 0 then none else some (ratRem a b)
  | _, _ => none

/-- script.js line 142: `const PHYSICS_FPS = 60`. -/
def PHYSICS_FPS : ℚ := 60

/-- script.js line 143: `const FIXED_DT = 1 / PHYSICS_FPS`. -/
def FIXED_DT : ℚ := 1 / PHYSICS_FPS

/-- One entry of the `MODES` table (script.js lines 145-203).  A field a
given mode does not define is `none` (JavaScript `undefined`). -/
structure ModeEntry where
  vx : JSNum := none
  gravity : JSNum := none
  miniGravity : JSNum := none
  jump : JSNum := none
  miniJump : JSNum := none
  rotGround : JSNum := none
  rotAir : JSNum := none
  thrustHold : JSNum := none
  thrustNoHold : JSNum := none
  tiltMult : JSNum := none
  rotSpeed : JSNum := none
  vyClamp : JSNum := none
  ampHold : JSNum := none
  ampNoHold : JSNum := none
  trailLen : JSNum := none
  jumpBase : JSNum := none
  jumpMax : JSNum := none
  holdScale : JSNum := none
  decay : JSNum := none

def cubeEntry : ModeEntry :=
  { vx := some 14.0, gravity := some 0.50, miniGravity := some 0.413,
    jump := some 12.0, miniJump := some 9.58,
    rotGround := some 4.5, rotAir := some 3.0 }

def shipEntry : ModeEntry :=
  { vx := some (14.0 * (12.5 / 10.376)), gravity := some 0.25,
    thrustHold := some 1.15, thrustNoHold := some 0.20,
    tiltMult := some 0.12 }

def ballEntry : ModeEntry :=
  { vx := some 14.0, gravity := some 0.55, rotSpeed := some 8.0 }

def ufoEntry : ModeEntry :=
  { vx := some 14.0, gravity := some 0.40, miniGravity := some 0.33,
    jump := some 6.60, miniJump := some 5.28, vyClamp := some 8.0 }

def waveEntry : ModeEntry :=
  { vx := some 16.0, ampHold := some (-1.35 * 60 * FIXED_DT),
    ampNoHold := some 1.35, trailLen := some 5 }

def robotEntry : ModeEntry :=
  { vx := some 14.0, gravity := some 0.84, miniGravity := some 0.69,
    jumpBase := some 10.34, jumpMax := some 16.0, holdScale := some 1.55 }

def spiderEntry : ModeEntry :=
  { vx := some 14.0, gravity := some 0.0, jump := some 11.5,
    decay := some 0.92 }

def swingEntry : ModeEntry :=
  { vx := some (14.0 * 1.15), gravity := some 0.40,
    thrustHold := some 1.00, thrustNoHold := some 0.40,
    tiltMult := some 0.15 }

/-- The `MODES` object (script.js lines 145-203) as an association list. -/
def MODES : List (String × ModeEntry) :=
  [("cube", cubeEntry), ("ship", shipEntry), ("ball", ballEntry),
   ("ufo", ufoEntry), ("wave", waveEntry), ("robot", robotEntry),
   ("spider", spiderEntry), ("swing", swingEntry)]

/-- The eight defined mode identifiers. -/
def modeNames : List String :=
  ["cube", "ship", "ball", "ufo", "wave", "robot", "spider", "swing"]

/-- The JavaScript property access `MODES[m]` (script.js line 212):
yields the entry for a defined mode and `undefined` (here `none`)
otherwise; no exception is raised by the access itself. -/
def modeLookup (m : String) : Option ModeEntry :=
  (MODES.find? (fun p => p.1 == m)).map Prod.snd

/-- A level object as consumed by `updateCollisions`. -/
structure Obj where
  type : String
  x : JSNum
  y : JSNum
  w : JSNum
  h : JSNum

/-- An axis-aligned box literal as built inline in the source. -/
structure Box where
  x : JSNum
  y : JSNum
  w : JSNum
  h : JSNum

/-- Modelled from the spec: the body of `Player.collides` (script.js
line 349) is only the comment "AABB standard"; spec sections 4.3 and 6
require the exact axis-aligned bounding-box overlap test performed by
the core itself. -/
def collides (a b : Box) : Bool :=
  jlt a.x (jadd b.x b.w) && jgt (jadd a.x a.w) b.x &&
    jlt a.y (jadd b.y b.h) && jgt (jadd a.y a.h) b.y

/-- Player state (`this` of the Player class), restricted to the fields
`fixedPhysics` reads or writes. -/
structure PState where
  x : JSNum
  y : JSNum
  vx : JSNum
  vy : JSNum
  rotation : JSNum
  flipY : JSNum
  mini : Bool
  mirror : Bool
  mode : String
  lastInput : Bool
  holdTime : JSNum
  isOnGround : Bool
  time : JSNum
  trail : List (JSNum × JSNum × JSNum)

/-- Per-tick environment: the externals the core reads.  `candidates`
is the list returned by `game.quadTree.query` (an external spatial
index); `atan2deg a b` is the oracle for `Math.atan2(a, b) * 180 / PI`
and `sinv` the oracle for `Math.sin` (transcendental, only feeding
rotation values no claim constrains). -/
structure Env where
  inputNow : Bool
  speedMult : JSNum
  candidates : List Obj
  atan2deg : JSNum → JSNum → JSNum
  sinv : JSNum → JSNum

/-- The X slide pass (script.js lines 307-313): every block candidate is
tested against the box whose left edge is the current `this.x` with the
vertical extent of the precomputed hitbox; on overlap `this.x` is set to
`obj.x - hb.w` when `vx > 0` and to `obj.x + obj.w` otherwise.  The loop
visits all candidates (no break). -/
def xPass (vx hbY hbW hbH : JSNum) (objs : List Obj) (x0 : JSNum) : JSNum :=
  objs.foldl
    (fun x obj =>
      if obj.type == "block" &&
          collides ⟨x, hbY, hbW, hbH⟩ ⟨obj.x, obj.y, obj.w, obj.h⟩ then
        (if jgt vx (some 0) then jsub obj.x hbW else jadd obj.x obj.w)
      else x)
    x0

/-- The Y resolve pass (script.js lines 316-329): first matching block
wins (break).  Descending (`vy > 0`) snaps to the block top, zeroes
`vy` and sets `isOnGround := true`; otherwise snaps to the block bottom
and zeroes `vy`.  Returns (y, vy, floor-hit flag); note the code never
sets `isOnGround` to `false`. -/
def yPass (x y vy hbW hbH : JSNum) : List Obj → JSNum × JSNum × Bool
  | [] => (y, vy, false)
  | obj :: rest =>
    if obj.type == "block" &&
        collides ⟨x, y, hbW, hbH⟩ ⟨obj.x, obj.y, obj.w, obj.h⟩ then
      if jgt vy (some 0) then (jsub obj.y hbH, some 0, true)
      else (jadd obj.y obj.h, some 0, false)
    else yPass x y vy hbW hbH rest

/-- `Player.updateCollisions` (script.js lines 303-337) with the hitbox
of `getHitbox` (lines 339-347) inlined: size 15 (7.5 mini), centred,
with a +2 vertical bias for cube.  The quadtree query result is the
environment-supplied candidate list.  The final trigger/portal pass
calls `interact`, whose body in the source consists solely of comments,
so it changes no state. -/
def updateCollisions (s : PState) (env : Env) : PState :=
  let size : ℚ := if s.mini then 7.5 else 15.0
  let hbY : JSNum :=
    jadd (jsub s.y (some (size / 2)))
      (some (if s.mode == "cube" then 2 else 0))
  let x1 := xPass s.vx hbY (some size) (some size) env.candidates s.x
  let yr := yPass x1 s.y s.vy (some size) (some size) env.candidates
  { s with x := x1, y := yr.1, vy := yr.2.1,
           isOnGround := s.isOnGround || yr.2.2 }

/-- The mode switch of `fixedPhysics` (script.js lines 233-286).
Arguments carry the values live at the switch: `justPressed`, `holding`,
`miniFactorJ`, the already-updated `holdTime`, the new `vx`, and `vy0`,
the velocity after the gravity step.  Returns (vy, flipY, rotation). -/
def modeStep (mode : ModeEntry) (s : PState) (env : Env) (dt : ℚ)
    (justPressed holding : Bool) (miniFactorJ holdTime vx vy0 : JSNum) :
    JSNum × JSNum × JSNum :=
  if s.mode == "cube" then
    let vy := if justPressed && s.isOnGround then
        jmul (jmul (jneg mode.jump) miniFactorJ) s.flipY
      else vy0
    let rotBase :=
      jmul (if s.isOnGround then mode.rotGround else mode.rotAir)
        (jdiv vx (some 14))
    (vy, s.flipY, jadd s.rotation (jmul rotBase (some (dt * 60))))
  else if s.mode == "ship" || s.mode == "swing" then
    let thrust := if holding then jneg mode.thrustHold else mode.thrustNoHold
    let vy := jadd vy0 (jmul (jmul thrust env.speedMult) (some dt))
    let tilt : ℚ := if s.mode == "ship" then 0.12 else 0.15
    (vy, s.flipY, jmul (env.atan2deg (jneg vy) (jabs vx)) (some tilt))
  else if s.mode == "ball" then
    let flipY := if justPressed then jmul s.flipY (some (-1)) else s.flipY
    (vy0, flipY, jadd s.rotation (jmul mode.rotSpeed (some (dt * 60))))
  else if s.mode == "ufo" then
    let vy1 := if justPressed then
        jmul (jmul (jneg mode.jump) miniFactorJ) s.flipY
      else vy0
    let clampV := jmul mode.vyClamp env.speedMult
    let vy := jmax (jneg clampV) (jmin clampV vy1)
    (vy, s.flipY,
      jadd s.rotation
        (jmul (jmul (env.sinv (jmul s.time (some 10))) (some 30)) (some dt)))
  else if s.mode == "wave" then
    let vy :=
      jmul (jmul s.flipY (if holding then jneg mode.ampHold else mode.ampNoHold))
        env.speedMult
    (vy, s.flipY, jadd (env.atan2deg vy vx) (some 90))
  else if s.mode == "robot" then
    let vy := if justPressed && s.isOnGround then
        let holdJump :=
          jadd
            (jmul (jdiv (jmin holdTime (some 20)) (some 20))
              (jsub mode.jumpMax mode.jumpBase))
            mode.jumpBase
        jmul (jmul (jneg holdJump) miniFactorJ) s.flipY
      else vy0
    (vy, s.flipY, s.rotation)
  else if s.mode == "spider" then
    if justPressed then
      let flipY := jmul s.flipY (some (-1))
      (jmul (jneg mode.jump) flipY, flipY, s.rotation)
    else (jmul vy0 mode.decay, s.flipY, s.rotation)
  else (vy0, s.flipY, s.rotation)

/-- The body of `Player.fixedPhysics(dt)` (script.js lines 210-301) for
a found mode entry, following the source order: input edge and hold
update, X movement, gravity, mode switch, Y integration, collision
resolution, cube rotation wrap, trail shift/push. -/
def tickWith (mode : ModeEntry) (s : PState) (env : Env) (dt : ℚ) : PState :=
  let frameDt : ℚ := 60 * dt
  let miniFactorG := if s.mini then jdiv mode.miniGravity mode.gravity else some 1
  let miniFactorJ := if s.mini then jdiv mode.miniJump mode.jump else some 1
  let g := jmul mode.gravity miniFactorG
  let justPressed := env.inputNow && !s.lastInput
  let holding := env.inputNow
  let holdTime :=
    if holding then jadd s.holdTime (some frameDt) else some 0
  let vx :=
    jmul (jmul mode.vx env.speedMult) (some (if s.mirror then -1 else 1))
  let x := jadd s.x (jmul vx (some dt))
  let vy0 := jadd s.vy (jmul (jmul g s.flipY) (some dt))
  let ms := modeStep mode s env dt justPressed holding miniFactorJ holdTime vx vy0
  let s1 : PState :=
    { s with x := x, vx := vx, vy := ms.1, flipY := ms.2.1,
             rotation := ms.2.2, lastInput := env.inputNow,
             holdTime := holdTime }
  let s2 : PState := { s1 with y := jadd s1.y (jmul s1.vy (some dt)) }
  let s3 := updateCollisions s2 env
  let s4 : PState :=
    if s.mode == "cube" then { s3 with rotation := jmod s3.rotation (some 360) }
    else s3
  { s4 with trail := s4.trail.tail ++ [(s4.x, s4.y, s4.rotation)] }

/-- `Player.fixedPhysics(dt)`: `MODES[this.mode]` is looked up first; an
unknown mode makes every later field access a property read on
`undefined`, which throws in JavaScript — modelled as `none` (the tick
does not complete). -/
def fixedPhysics (s : PState) (env : Env) (dt : ℚ) : Option PState :=
  (modeLookup s.mode).map (fun mode => tickWith mode s env dt)

/-- Iterated ticks, one environment per tick (the session loop calling
`player.fixedPhysics(FIXED_DT)` once per fixed frame). -/
def runTicks (s : PState) (envs : List Env) (dt : ℚ) : Option PState :=
  envs.foldl (fun acc env => acc.bind (fun st => fixedPhysics st env dt)) (some s)

/-! ## Concrete states and environments used by individual claims -/

/-- A cube-mode player standing on ground with no input. -/
def c1State : PState :=
  { x := some 0, y := some 0, vx := some 0, vy := some 0,
    rotation := some 0, flipY := some 1, mini := false, mirror := false,
    mode := "cube", lastInput := false, holdTime := some 0,
    isOnGround := true, time := some 0, trail := [] }

/-- Environment with no input, speed multiplier 1 and no candidate
colliders (the quadtree query returns nothing near the player). -/
def quietEnv : Env :=
  { inputNow := false, speedMult := some 1, candidates := [],
    atan2deg := fun _ _ => none, sinv := fun _ => none }

/-- Environment identical to `quietEnv` but with the jump key held. -/
def holdEnv : Env := { quietEnv with inputNow := true }

/-- A player state whose mode identifier is not one of the 8 defined. -/
def c2State : PState := { c1State with mode := "rocket" }

/-- A wave-mode player, flip direction +1, airborne, no prior input. -/
def waveState : PState := { c1State with mode := "wave", isOnGround := false }

/-- A mini spider-mode player about to receive a press edge. -/
def c3State : PState :=
  { c1State with mode := "spider", mini := true, isOnGround := false }

/-- A mini ship-mode player. -/
def c3ShipState : PState := { c1State with mode := "ship", mini := true }

/-- A mirrored airborne cube player: negative `vx` makes the rotation
increment negative. -/
def c4State : PState := { c1State with mirror := true, isOnGround := false }

/-- A cube player moving right toward a block. -/
def c5State : PState :=
  { c1State with x := some 100, vx := some 14, isOnGround := false }

/-- A block overlapping the X-pass box of `c5State`. -/
def c5Block : Obj :=
  { type := "block", x := some 105, y := some (-10), w := some 30, h := some 30 }

/-- Environment whose spatial query returns `c5Block`. -/
def c5Env : Env := { quietEnv with candidates := [c5Block] }

/-- First block of the two-block X-pass witness. -/
def c5wB1 : Obj :=
  { type := "block", x := some 10, y := some 0, w := some 30, h := some 15 }

/-- Second block of the two-block X-pass witness, overlapping the box
after the snap to the first block. -/
def c5wB2 : Obj :=
  { type := "block", x := some 5, y := some 0, w := some 30, h := some 15 }

/-- A robot player on ground whose key is already down (so no press
edge occurs while holding). -/
def c7State : PState :=
  { c1State with mode := "robot", lastInput := true, isOnGround := true }

/-- Twenty ticks of holding, one release tick, then a press tick. -/
def c7Envs : List Env := List.replicate 20 holdEnv ++ [quietEnv, holdEnv]

/-- A robot player on ground, key up, about to receive a press edge. -/
def c7wState : PState := { c1State with mode := "robot" }

/-- A ufo player with an excessive upward-integrator velocity. -/
def c8State : PState :=
  { c1State with mode := "ufo", vy := some 100, isOnGround := false }

/-- A cube player whose trail already holds 25 samples. -/
def c9State : PState :=
  { c1State with trail := List.replicate 25 (some 0, some 0, some 0) }

/-- A spider player with downward velocity 10 and no input. -/
def c10State : PState := { c1State with mode := "spider", vy := some 10 }

/-! ## Theorems -/

/-! ## Generic facts about the embedding -/

theorem ratFloor_eq_floor (q : ℚ) : q.floor = ⌊q⌋ := by
  rw [Rat.floor_def', Rat.floor_def]

/-- The JavaScript remainder keeps any value strictly between minus the
modulus and the modulus (for modulus 360). -/
theorem ratRem_360_bounds (x : ℚ) : -360 < ratRem x 360 ∧ ratRem x 360 < 360 := by
  rw [ratRem, ratTrunc]
  by_cases h : x / 360 < 0
  · rw [if_pos h]
    push_cast
    rw [ratFloor_eq_floor]
    have h1 : (⌊-(x / 360)⌋ : ℚ) ≤ -(x / 360) := Int.floor_le _
    have h2 : -(x / 360) < ⌊-(x / 360)⌋ + 1 := Int.lt_floor_add_one _
    constructor <;> nlinarith
  · rw [if_neg h]
    rw [ratFloor_eq_floor]
    have h1 : (⌊x / 360⌋ : ℚ) ≤ x / 360 := Int.floor_le _
    have h2 : x / 360 < ⌊x / 360⌋ + 1 := Int.lt_floor_add_one _
    constructor <;> nlinarith

/-- A Y pass run with a NaN y position never detects a collision. -/
theorem yPass_y_none (x vy hbW hbH : JSNum) (objs : List Obj) :
    yPass x none vy hbW hbH objs = (none, vy, false) := by
  induction objs with
  | nil => rfl
  | cons obj rest ih =>
    rw [yPass]
    have hc : collides ⟨x, none, hbW, hbH⟩ ⟨obj.x, obj.y, obj.w, obj.h⟩ = false := by
      simp [collides, jlt]
    simp [hc, ih]

/-- The Y pass either leaves vy unchanged or zeroes it. -/
theorem yPass_vy_cases (x y vy hbW hbH : JSNum) (objs : List Obj) :
    (yPass x y vy hbW hbH objs).2.1 = vy ∨
      (yPass x y vy hbW hbH objs).2.1 = some 0 := by
  induction objs with
  | nil => exact Or.inl rfl
  | cons obj rest ih =>
    rw [yPass]
    split
    · split
      · exact Or.inr rfl
      · exact Or.inr rfl
    · exact ih

/-- The clamp expression of the ufo branch bounds any numeric result. -/
theorem jclamp_abs (v1 : JSNum) (c : ℚ) (hc : 0 ≤ c) (v : ℚ)
    (h : jmax (some (-c)) (jmin (some c) v1) = some v) : |v| ≤ c := by
  cases v1 with
  | none => simp [jmin, jmax] at h
  | some w =>
    simp only [jmin, jmax, Option.some.injEq] at h
    subst h
    rw [abs_le]
    constructor
    · exact le_max_left _ _
    · exact max_le (by linarith) (min_le_left _ _)

theorem updateCollisions_rotation (s : PState) (env : Env) :
    (updateCollisions s env).rotation = s.rotation := rfl

theorem updateCollisions_trail (s : PState) (env : Env) :
    (updateCollisions s env).trail = s.trail := rfl

theorem updateCollisions_flipY (s : PState) (env : Env) :
    (updateCollisions s env).flipY = s.flipY := rfl



/-! ### Rewrite lemmas for the number operations -/

@[simp] theorem jadd_none_left (b : JSNum) : jadd none b = none := rfl

@[simp] theorem jadd_none_right (a : JSNum) : jadd a none = none := by
  cases a <;> rfl

@[simp] theorem jadd_some (a b : ℚ) : jadd (some a) (some b) = some (a + b) := rfl

@[simp] theorem jsub_none_left (b : JSNum) : jsub none b = none := rfl

@[simp] theorem jsub_none_right (a : JSNum) : jsub a none = none := by
  cases a <;> rfl

@[simp] theorem jsub_some (a b : ℚ) : jsub (some a) (some b) = some (a - b) := rfl

@[simp] theorem jmul_none_left (b : JSNum) : jmul none b = none := rfl

@[simp] theorem jmul_none_right (a : JSNum) : jmul a none = none := by
  cases a <;> rfl

@[simp] theorem jmul_some (a b : ℚ) : jmul (some a) (some b) = some (a * b) := rfl

@[simp] theorem jdiv_none_left (b : JSNum) : jdiv none b = none := rfl

@[simp] theorem jdiv_none_right (a : JSNum) : jdiv a none = none := by
  cases a <;> rfl

@[simp] theorem jdiv_some (a b : ℚ) :
    jdiv (some a) (some b) = if b = 0 then none else some (a / b) := rfl

@[simp] theorem jneg_none : jneg none = none := rfl

@[simp] theorem jneg_some (a : ℚ) : jneg (some a) = some (-a) := rfl

@[simp] theorem jabs_none : jabs none = none := rfl

@[simp] theorem jabs_some (a : ℚ) : jabs (some a) = some |a| := rfl

@[simp] theorem jlt_none_left (b : JSNum) : jlt none b = false := rfl

@[simp] theorem jlt_none_right (a : JSNum) : jlt a none = false := by
  cases a <;> rfl

@[simp] theorem jlt_some (a b : ℚ) : jlt (some a) (some b) = decide (a < b) := rfl

@[simp] theorem jgt_none_left (b : JSNum) : jgt none b = false := rfl

@[simp] theorem jgt_none_right (a : JSNum) : jgt a none = false := by
  cases a <;> rfl

@[simp] theorem jgt_some (a b : ℚ) : jgt (some a) (some b) = decide (a > b) := rfl

@[simp] theorem jmin_none_left (b : JSNum) : jmin none b = none := rfl

@[simp] theorem jmin_none_right (a : JSNum) : jmin a none = none := by
  cases a <;> rfl

@[simp] theorem jmin_some (a b : ℚ) : jmin (some a) (some b) = some (min a b) := rfl

@[simp] theorem jmax_none_left (b : JSNum) : jmax none b = none := rfl

@[simp] theorem jmax_none_right (a : JSNum) : jmax a none = none := by
  cases a <;> rfl

@[simp] theorem jmax_some (a b : ℚ) : jmax (some a) (some b) = some (max a b) := rfl

@[simp] theorem jmod_none_left (b : JSNum) : jmod none b = none := rfl

@[simp] theorem jmod_none_right (a : JSNum) : jmod a none = none := by
  cases a <;> rfl

@[simp] theorem jmod_some (a b : ℚ) :
    jmod (some a) (some b) = if b = 0 then none else some (ratRem a b) := rfl

/-! ## Claim C1 -/

/-- Claim C1 (code bug, demonstration): the claim says `onGround` is
reset to false at the start of each Y pass and can only be true after a
tick that snapped to a floor.  `updateCollisions` (script.js 303-337)
never resets `isOnGround`: starting a tick on ground (`isOnGround =
true`) with no candidate collider at all — so no floor contact can
possibly be resolved this tick — the flag is still true after the tick. -/
theorem claim_C1_onGround_persists :
    (fixedPhysics c1State quietEnv FIXED_DT).map PState.isOnGround = some true := by
  rfl

/-! ## Claim C2 -/



/-- Claim C2 (counterexample): for the undefined identifier "rocket" the
mode-table access completes and yields no entry (JavaScript
`undefined`); no `UnknownModeError` exists anywhere in the code.  The
tick then dies on a property access on `undefined` (a TypeError,
modelled as `none`), which is not the claimed dedicated error. -/
theorem claim_C2_counterexample :
    modeLookup "rocket" = none ∧
      fixedPhysics c2State quietEnv FIXED_DT = none := by
  constructor <;> rfl

/-- Claim C2 (amended): the lookup succeeds exactly on the 8 defined
identifiers and yields no entry — rather than an `UnknownModeError` —
on every other identifier. -/
theorem claim_C2_lookup_total (m : String) :
    (modeLookup m).isSome = modeNames.contains m := by
  by_cases h1 : m = "cube"
  · subst h1; rfl
  by_cases h2 : m = "ship"
  · subst h2; rfl
  by_cases h3 : m = "ball"
  · subst h3; rfl
  by_cases h4 : m = "ufo"
  · subst h4; rfl
  by_cases h5 : m = "wave"
  · subst h5; rfl
  by_cases h6 : m = "robot"
  · subst h6; rfl
  by_cases h7 : m = "spider"
  · subst h7; rfl
  by_cases h8 : m = "swing"
  · subst h8; rfl
  have e1 : (("cube" : String) == m) = false := beq_eq_false_iff_ne.mpr (fun h => h1 h.symm)
  have e2 : (("ship" : String) == m) = false := beq_eq_false_iff_ne.mpr (fun h => h2 h.symm)
  have e3 : (("ball" : String) == m) = false := beq_eq_false_iff_ne.mpr (fun h => h3 h.symm)
  have e4 : (("ufo" : String) == m) = false := beq_eq_false_iff_ne.mpr (fun h => h4 h.symm)
  have e5 : (("wave" : String) == m) = false := beq_eq_false_iff_ne.mpr (fun h => h5 h.symm)
  have e6 : (("robot" : String) == m) = false := beq_eq_false_iff_ne.mpr (fun h => h6 h.symm)
  have e7 : (("spider" : String) == m) = false := beq_eq_false_iff_ne.mpr (fun h => h7 h.symm)
  have e8 : (("swing" : String) == m) = false := beq_eq_false_iff_ne.mpr (fun h => h8 h.symm)
  have f1 : (m == ("cube" : String)) = false := beq_eq_false_iff_ne.mpr h1
  have f2 : (m == ("ship" : String)) = false := beq_eq_false_iff_ne.mpr h2
  have f3 : (m == ("ball" : String)) = false := beq_eq_false_iff_ne.mpr h3
  have f4 : (m == ("ufo" : String)) = false := beq_eq_false_iff_ne.mpr h4
  have f5 : (m == ("wave" : String)) = false := beq_eq_false_iff_ne.mpr h5
  have f6 : (m == ("robot" : String)) = false := beq_eq_false_iff_ne.mpr h6
  have f7 : (m == ("spider" : String)) = false := beq_eq_false_iff_ne.mpr h7
  have f8 : (m == ("swing" : String)) = false := beq_eq_false_iff_ne.mpr h8
  simp [modeLookup, MODES, modeNames, List.find?, List.contains,
    e1, e2, e3, e4, e5, e6, e7, e8, f1, f2, f3, f4, f5, f6, f7, f8]
  exact ⟨h1, h2, h3, h4, h5, h6, h7, h8⟩

/-! ## Claim C6 -/



/-- Claim C6 (code bug, demonstration): with the key held, flip
direction +1 and speed multiplier 1, the wave branch (script.js 265-268)
assigns `vy = flipY * (-ampHold) * speedMult` where the stored
`ampHold = -1.35 * 60 * FIXED_DT = -1.35` is already negative, so the
double negation yields `+1.35` — not the `-1.35` the claim (and the
MODES comment `vy = flipY * amp`) prescribe for holding.  The direct
(non-accumulating) assignment itself is as claimed. -/
theorem claim_C6_wave_holding_sign :
    (fixedPhysics waveState holdEnv FIXED_DT).bind PState.vy = some 1.35 ∧
      (1.35 : ℚ) ≠ -1.35 := by
  constructor
  · have h : (fixedPhysics waveState holdEnv FIXED_DT).bind PState.vy =
        jmul (jmul (some 1) (jneg (some (-1.35 * 60 * FIXED_DT)))) (some 1) := rfl
    rw [h]
    simp only [jneg, jmul, Option.some.injEq]
    norm_num [FIXED_DT, PHYSICS_FPS]
  · norm_num


/-! ## Claim C3 -/

theorem modeLookup_ship : modeLookup "ship" = some shipEntry := rfl

theorem modeLookup_ball : modeLookup "ball" = some ballEntry := rfl

theorem modeLookup_swing : modeLookup "swing" = some swingEntry := rfl

theorem modeLookup_spider : modeLookup "spider" = some spiderEntry := rfl

/-- Claim C3 (amended): for every mode entry without `miniGravity`
(ship, ball, wave, spider, swing) the mini gravity step produces NaN
`vy` (first conjunct, stated for any pre-tick `vy`, flip value and dt,
exactly as the line `this.vy += g * this.flipY * dt` with
`g = mode.gravity * (mode.miniGravity / mode.gravity)` computes it);
and end-to-end, a mini player in ship, ball or swing mode — or spider
mode on a tick without a press edge — finishes the tick with `vy` and
`y` both NaN.  (The original claim also listed spider unconditionally;
the spider `justPressed` branch overwrites `vy` with a fresh finite
impulse, see the counterexample.) -/
theorem claim_C3_mini_nan :
    (∀ e : ModeEntry,
      e ∈ [shipEntry, ballEntry, waveEntry, spiderEntry, swingEntry] →
      ∀ (vy fl : JSNum) (d : ℚ),
        jdiv e.miniGravity e.gravity = none ∧
        jadd vy (jmul (jmul (jmul e.gravity (jdiv e.miniGravity e.gravity)) fl)
          (some d)) = none) ∧
    (∀ (s : PState) (env : Env) (dt : ℚ), s.mini = true →
      (s.mode = "ship" ∨ s.mode = "ball" ∨ s.mode = "swing" ∨
        (s.mode = "spider" ∧ (env.inputNow && !s.lastInput) = false)) →
      (fixedPhysics s env dt).map PState.vy = some none ∧
        (fixedPhysics s env dt).map PState.y = some none) := by
  constructor
  · intro e he vy fl d
    have hmg : e.miniGravity = none := by
      simp only [List.mem_cons, List.not_mem_nil, or_false] at he
      rcases he with rfl | rfl | rfl | rfl | rfl <;> rfl
    rw [hmg]
    simp
  · intro s env dt hmini hmode
    have step : ∀ e : ModeEntry, modeLookup s.mode = some e →
        e.miniGravity = none →
        (tickWith e s env dt).vy = none ∧ (tickWith e s env dt).y = none →
        (fixedPhysics s env dt).map PState.vy = some none ∧
          (fixedPhysics s env dt).map PState.y = some none := by
      intro e hl _ h
      rw [fixedPhysics, hl]
      simpa using h
    rcases hmode with hm | hm | hm | ⟨hm, hjp⟩
    · refine step shipEntry (by rw [hm]; exact modeLookup_ship) rfl ?_
      cases hvy : s.vy <;> cases hy : s.y <;>
        simp [tickWith, modeStep, updateCollisions, hm, hmini, hvy, hy,
          yPass_y_none, shipEntry]
    · refine step ballEntry (by rw [hm]; exact modeLookup_ball) rfl ?_
      cases hvy : s.vy <;> cases hy : s.y <;>
        simp [tickWith, modeStep, updateCollisions, hm, hmini, hvy, hy,
          yPass_y_none, ballEntry]
    · refine step swingEntry (by rw [hm]; exact modeLookup_swing) rfl ?_
      cases hvy : s.vy <;> cases hy : s.y <;>
        simp [tickWith, modeStep, updateCollisions, hm, hmini, hvy, hy,
          yPass_y_none, swingEntry]
    · refine step spiderEntry (by rw [hm]; exact modeLookup_spider) rfl ?_
      cases hvy : s.vy <;> cases hy : s.y <;>
        simp [tickWith, modeStep, updateCollisions, hm, hmini, hvy, hy, hjp,
          yPass_y_none, spiderEntry]

/-- Claim C3 (counterexample): a mini spider player on a press-edge tick
does not keep a NaN `vy`: the spider branch flips and then overwrites
`vy` with the fresh finite impulse `-jump * flipY = 11.5`, so listing
spider among the modes whose `vy` "remains NaN after the tick" is wrong
for press-edge ticks. -/
theorem claim_C3_counterexample :
    (fixedPhysics c3State holdEnv FIXED_DT).map PState.vy = some (some (23/2)) ∧
      (some (23/2) : JSNum) ≠ (none : JSNum) := by
  constructor
  · have h : (fixedPhysics c3State holdEnv FIXED_DT).map PState.vy =
        some (jmul (jneg (some 11.5)) (jmul (some 1) (some (-1)))) := rfl
    rw [h]
    norm_num
  · simp

/-- Claim C3 (witness): the amended theorem applied to a concrete mini
ship player on a quiet tick. -/
theorem claim_C3_witness :
    (fixedPhysics c3ShipState quietEnv FIXED_DT).map PState.vy = some none ∧
      (fixedPhysics c3ShipState quietEnv FIXED_DT).map PState.y = some none :=
  claim_C3_mini_nan.2 c3ShipState quietEnv FIXED_DT rfl (Or.inl rfl)

/-! ## Claim C4 -/

theorem modeLookup_cube : modeLookup "cube" = some cubeEntry := rfl

/-- Whatever rotation value reaches the cube wrap `this.rotation %= 360`,
a numeric result lies strictly between -360 and 360. -/
theorem jmod360_bounds (a : JSNum) (r : ℚ)
    (h : jmod a (some 360) = some r) : -360 < r ∧ r < 360 := by
  cases a with
  | none => simp [jmod] at h
  | some q =>
    rw [jmod_some, if_neg (by norm_num)] at h
    obtain rfl : ratRem q 360 = r := Option.some.injEq _ _ ▸ h
    exact ratRem_360_bounds q

/-- Claim C4 (counterexample): a mirrored airborne cube (rotation 0,
speed multiplier 1) gets rotation increment `rotAir * (vx/14) = -3` on
one tick, and the JavaScript `%= 360` keeps the sign of the dividend:
the post-normalization rotation is `-3`, not in `[0, 360)`. -/
theorem claim_C4_counterexample :
    (fixedPhysics c4State quietEnv FIXED_DT).bind PState.rotation = some (-3) ∧
      ¬ ((0 : ℚ) ≤ -3) := by
  constructor
  · have h : (fixedPhysics c4State quietEnv FIXED_DT).bind PState.rotation =
        some (ratRem (0 + 3.0 * (14.0 * 1 * -1 / 14) * (FIXED_DT * 60)) 360) := rfl
    rw [h]
    have e1 : (0 + 3.0 * (14.0 * 1 * -1 / 14) * (FIXED_DT * 60) : ℚ) = -3 := by
      norm_num [FIXED_DT, PHYSICS_FPS]
    rw [e1]
    have hfl : (⌊(-(-3) / 360 : ℚ)⌋ : ℤ) = 0 := by
      rw [Int.floor_eq_zero_iff]
      constructor <;> norm_num
    rw [ratRem, ratTrunc, if_pos (by norm_num), ratFloor_eq_floor,
      show (-(-3 / 360) : ℚ) = -(-3) / 360 by ring, hfl]
    norm_num
  · norm_num

/-- Claim C4 (amended): after a cube tick the normalized rotation, when
numeric, lies strictly between -360 and 360; it lies in `[0, 360)` only
when the pre-normalization value is nonnegative, since the JavaScript
`%` keeps the sign of the dividend (see the counterexample for a
mirrored negative rotation landing at -3). -/
theorem claim_C4_rotation_bounds (s : PState) (env : Env) (dt : ℚ) (r : ℚ)
    (hm : s.mode = "cube")
    (h : (fixedPhysics s env dt).bind PState.rotation = some r) :
    -360 < r ∧ r < 360 := by
  rw [fixedPhysics, hm, modeLookup_cube] at h
  have h2 : (tickWith cubeEntry s env dt).rotation = some r := h
  simp only [tickWith, hm, updateCollisions_rotation, apply_ite PState.rotation,
    beq_self_eq_true, if_true] at h2
  exact jmod360_bounds _ r h2

/-- Claim C4 (witness): the amended bounds at the concrete mirrored cube
tick, whose normalized rotation evaluates to -3. -/
theorem claim_C4_witness :
    (-360 : ℚ) < -3 ∧ (-3 : ℚ) < 360 := by
  have hEval : (fixedPhysics c4State quietEnv FIXED_DT).bind PState.rotation =
      some (-3) := by
    have h : (fixedPhysics c4State quietEnv FIXED_DT).bind PState.rotation =
        some (ratRem (0 + 3.0 * (14.0 * 1 * -1 / 14) * (FIXED_DT * 60)) 360) := rfl
    rw [h]
    have e1 : (0 + 3.0 * (14.0 * 1 * -1 / 14) * (FIXED_DT * 60) : ℚ) = -3 := by
      norm_num [FIXED_DT, PHYSICS_FPS]
    rw [e1]
    have hfl : (⌊(-(-3) / 360 : ℚ)⌋ : ℤ) = 0 := by
      rw [Int.floor_eq_zero_iff]
      constructor <;> norm_num
    rw [ratRem, ratTrunc, if_pos (by norm_num), ratFloor_eq_floor,
      show (-(-3 / 360) : ℚ) = -(-3) / 360 by ring, hfl]
    norm_num
  exact claim_C4_rotation_bounds c4State quietEnv FIXED_DT (-3) rfl hEval

/-! ## Claim C5 -/

/-- Claim C5 (counterexample): with the player centre at x = 100 moving
right (vx = 14) and a block with left edge 105 overlapping the X-pass
box, the pass sets x to `block.left - hitboxWidth = 105 - 15 = 90`, not
to `block.left - halfWidth = 105 - 7.5 = 97.5` as the claim states. -/
theorem claim_C5_counterexample :
    (updateCollisions c5State c5Env).x = some 90 ∧
      ((90 : ℚ) ≠ 105 - 15 / 2) := by
  constructor
  · norm_num [updateCollisions, xPass, collides, c5State, c5Env, c5Block,
      quietEnv, c1State]
  · norm_num

/-- Claim C5 (amended): on overlap the X pass snaps x to
`block.left - hitboxWidth` (the full width, not the half width) when
moving right and to `block.right` when moving left (the test box is the
current x with the hitbox vertical extent, taken from the already
integrated new y); all candidates are checked — after snapping to a
first overlapping block a second overlapping candidate is still
processed and determines the final x (no early break). -/
theorem claim_C5_xpass_snaps (vx hbY w h : JSNum) (b1 b2 : Obj) (x0 : JSNum)
    (hb1 : b1.type = "block") (hb2 : b2.type = "block")
    (hcol : collides ⟨x0, hbY, w, h⟩ ⟨b1.x, b1.y, b1.w, b1.h⟩ = true) :
    (jgt vx (some 0) = true →
      xPass vx hbY w h [b1] x0 = jsub b1.x w ∧
      (collides ⟨jsub b1.x w, hbY, w, h⟩ ⟨b2.x, b2.y, b2.w, b2.h⟩ = true →
        xPass vx hbY w h [b1, b2] x0 = jsub b2.x w)) ∧
    (jgt vx (some 0) = false →
      xPass vx hbY w h [b1] x0 = jadd b1.x b1.w) := by
  constructor
  · intro hgt
    constructor
    · simp [xPass, hb1, hcol, hgt]
    · intro hcol2
      simp [xPass, hb1, hb2, hcol, hcol2, hgt]
  · intro hgt
    simp [xPass, hb1, hcol, hgt]

/-- Claim C5 (witness): the amended snap behaviour at concrete blocks —
moving right through two overlapping candidates, the final x is the
second block snap. -/
theorem claim_C5_witness :
    xPass (some 14) (some 0) (some 15) (some 15) [c5wB1, c5wB2] (some 0) =
      jsub c5wB2.x (some 15) := by
  have h := claim_C5_xpass_snaps (some 14) (some 0) (some 15) (some 15)
    c5wB1 c5wB2 (some 0) rfl rfl (by norm_num [collides, c5wB1])
  exact (h.1 (by norm_num)).2 (by norm_num [collides, c5wB1, c5wB2])

/-! ## Claim C7 -/

theorem modeLookup_robot : modeLookup "robot" = some robotEntry := rfl

theorem runTicks_none (es : List Env) (dt : ℚ) :
    List.foldl (fun acc env => acc.bind (fun st => fixedPhysics st env dt))
      none es = none := by
  induction es with
  | nil => rfl
  | cons e es ih => rw [List.foldl_cons]; exact ih

theorem runTicks_cons (s : PState) (e : Env) (es : List Env) (dt : ℚ) :
    runTicks s (e :: es) dt =
      (fixedPhysics s e dt).bind (fun s2 => runTicks s2 es dt) := by
  rw [runTicks, List.foldl_cons]
  cases h : fixedPhysics s e dt with
  | none =>
    show List.foldl _ ((some s).bind fun st => fixedPhysics st e dt) es = _
    rw [Option.some_bind, h, Option.none_bind]
    exact runTicks_none es dt
  | some s2 =>
    show List.foldl _ ((some s).bind fun st => fixedPhysics st e dt) es = _
    rw [Option.some_bind, h, Option.some_bind]
    rfl

theorem runTicks_append (s : PState) (l1 l2 : List Env) (dt : ℚ) :
    runTicks s (l1 ++ l2) dt =
      (runTicks s l1 dt).bind (fun s2 => runTicks s2 l2 dt) := by
  rw [runTicks, List.foldl_append]
  cases h : runTicks s l1 dt with
  | none =>
    rw [show List.foldl _ (some s) l1 = none from h, Option.none_bind]
    exact runTicks_none l2 dt
  | some s2 =>
    rw [show List.foldl _ (some s) l1 = some s2 from h, Option.some_bind]
    rfl

/-- One robot tick with no candidate colliders: how the bookkeeping
fields evolve (the hold timer gains one frame-equivalent while held and
resets to 0 on release; `isOnGround` is never cleared). -/
theorem robot_tick_exists (s : PState) (env : Env) (dt : ℚ)
    (hm : s.mode = "robot") (hc : env.candidates = []) :
    ∃ s2, fixedPhysics s env dt = some s2 ∧ s2.mode = "robot" ∧
      s2.mini = s.mini ∧ s2.flipY = s.flipY ∧ s2.isOnGround = s.isOnGround ∧
      s2.lastInput = env.inputNow ∧
      s2.holdTime =
        (if env.inputNow then jadd s.holdTime (some (60 * dt)) else some 0) := by
  obtain ⟨sx, sy, svx, svy, srot, sfl, smini, smir, smode, slast, shold,
    sog, stime, strail⟩ := s
  obtain ⟨einput, espeed, ecand, eatan, esin⟩ := env
  dsimp only at hm hc ⊢
  subst hm hc
  refine ⟨_, rfl, rfl, rfl, rfl, ?_, rfl, rfl⟩
  show (sog || false) = sog
  exact Bool.or_false sog

/-- A press-edge robot tick (previous tick released, so `holdTime` was
reset to some prior value `h`; the tick first adds one frame-equivalent
and then jumps): the assigned `vy` follows the interpolation formula
with the *current* hold timer. -/
theorem robot_press_vy (s : PState) (env : Env) (dt h : ℚ)
    (hm : s.mode = "robot") (hc : env.candidates = [])
    (hin : env.inputNow = true) (hlast : s.lastInput = false)
    (hog : s.isOnGround = true) (hmini : s.mini = false)
    (hfl : s.flipY = some 1) (hht : s.holdTime = some h) :
    (fixedPhysics s env dt).bind PState.vy =
      some (-(min (h + 60 * dt) 20 / 20 * (16.0 - 10.34) + 10.34)) := by
  obtain ⟨sx, sy, svx, svy, srot, sfl, smini, smir, smode, slast, shold,
    sog, stime, strail⟩ := s
  obtain ⟨einput, espeed, ecand, eatan, esin⟩ := env
  dsimp only at hm hc hin hlast hog hmini hfl hht
  subst hm hc hin hlast hog hmini hfl hht
  have e : (fixedPhysics
      ⟨sx, sy, svx, svy, srot, some 1, false, smir, "robot", false, some h,
        true, stime, strail⟩
      ⟨true, espeed, [], eatan, esin⟩ dt).bind PState.vy =
      some (-(min (h + 60 * dt) 20 / 20 * (16.0 - 10.34) + 10.34) * 1 * 1) := rfl
  rw [e]
  norm_num

/-- Holding for `n` ticks with the key already down keeps the robot
invariants (mode, size, flip, ground flag, held key). -/
theorem robot_hold_run (n : ℕ) (s : PState)
    (hm : s.mode = "robot") (hmini : s.mini = false) (hfl : s.flipY = some 1)
    (hog : s.isOnGround = true) (hlast : s.lastInput = true) :
    ∃ s2, runTicks s (List.replicate n holdEnv) FIXED_DT = some s2 ∧
      s2.mode = "robot" ∧ s2.mini = false ∧ s2.flipY = some 1 ∧
      s2.isOnGround = true ∧ s2.lastInput = true := by
  induction n generalizing s with
  | zero => exact ⟨s, rfl, hm, hmini, hfl, hog, hlast⟩
  | succ n ih =>
    obtain ⟨s1, h1, hm1, hmini1, hfl1, hog1, hlast1, _⟩ :=
      robot_tick_exists s holdEnv FIXED_DT hm rfl
    obtain ⟨s2, h2, props⟩ := ih s1 hm1 (hmini1.trans hmini) (hfl1.trans hfl)
      (hog1.trans hog) hlast1
    refine ⟨s2, ?_, props⟩
    rw [List.replicate_succ, runTicks_cons, h1, Option.some_bind, h2]

/-- Claim C7 (counterexample): hold the key 20 ticks (key already down,
so no press edge fires), release for one tick, then press.  The release
tick resets `holdTime` to 0, the press tick increments it to 1 frame,
so the charge fraction is `min(1,20)/20 = 1/20` and the jump impulse is
`10.34 + (16 - 10.34)/20 = 10.623` — not the saturated `jumpMax = 16`
the claim predicts (`vy = -10.623`, not `-16`). -/
theorem claim_C7_counterexample :
    (runTicks c7State c7Envs FIXED_DT).bind PState.vy = some (-(10623/1000)) ∧
      (-(10623 : ℚ)/1000) ≠ -16 := by
  constructor
  · obtain ⟨s20, h20, hm20, hmini20, hfl20, hog20, hlast20⟩ :=
      robot_hold_run 20 c7State rfl rfl rfl rfl rfl
    obtain ⟨s21, h21, hm21, hmini21, hfl21, hog21, hlast21, hht21⟩ :=
      robot_tick_exists s20 quietEnv FIXED_DT hm20 rfl
    have hbind : ∀ (o : Option PState),
        (o.bind (fun s2 => runTicks s2 [] FIXED_DT)).bind PState.vy =
          o.bind PState.vy := by
      intro o; cases o <;> rfl
    rw [show c7Envs = List.replicate 20 holdEnv ++ [quietEnv, holdEnv] from rfl,
      runTicks_append, h20, Option.some_bind, runTicks_cons, h21,
      Option.some_bind, runTicks_cons, hbind,
      robot_press_vy s21 holdEnv FIXED_DT 0 hm21 rfl rfl hlast21
        (hog21.trans hog20) (hmini21.trans hmini20) (hfl21.trans hfl20) hht21]
    rw [show (0 + 60 * FIXED_DT : ℚ) = 1 by norm_num [FIXED_DT, PHYSICS_FPS],
      min_eq_left (by norm_num : (1 : ℚ) ≤ 20)]
    norm_num
  · norm_num

/-- Claim C7 (amended): on a press-edge tick on ground (robot, normal
size, flip +1, no colliders) the assigned `vy` is
`-(min(holdTime, 20)/20 * (jumpMax - jumpBase) + jumpBase)` with the
*current* hold timer (first conjunct, any dt and any pre-tick timer
value `h`); but since a press edge requires the previous tick to be
released — which reset the timer to 0 — the eventual press jump always
uses a charge of one frame: the impulse is
`jumpBase + (jumpMax - jumpBase)/20 = 10.623`, never the saturated
`jumpMax = 16` (second conjunct). -/
theorem claim_C7_robot_charge :
    (∀ (s : PState) (env : Env) (dt h : ℚ), s.mode = "robot" →
      env.candidates = [] → env.inputNow = true → s.lastInput = false →
      s.isOnGround = true → s.mini = false → s.flipY = some 1 →
      s.holdTime = some h →
      (fixedPhysics s env dt).bind PState.vy =
        some (-(min (h + 60 * dt) 20 / 20 * (16.0 - 10.34) + 10.34))) ∧
    (∀ (s : PState) (env : Env), s.mode = "robot" → env.candidates = [] →
      env.inputNow = true → s.lastInput = false → s.isOnGround = true →
      s.mini = false → s.flipY = some 1 → s.holdTime = some 0 →
      (fixedPhysics s env FIXED_DT).bind PState.vy = some (-(10623/1000)) ∧
        (-(10623 : ℚ)/1000) ≠ -16) := by
  constructor
  · intro s env dt h hm hc hin hlast hog hmini hfl hht
    exact robot_press_vy s env dt h hm hc hin hlast hog hmini hfl hht
  · intro s env hm hc hin hlast hog hmini hfl hht
    refine ⟨?_, by norm_num⟩
    rw [robot_press_vy s env FIXED_DT 0 hm hc hin hlast hog hmini hfl hht]
    rw [show (0 + 60 * FIXED_DT : ℚ) = 1 by norm_num [FIXED_DT, PHYSICS_FPS],
      min_eq_left (by norm_num : (1 : ℚ) ≤ 20)]
    norm_num

/-- Claim C7 (witness): the amended statement at a concrete robot state
receiving a press edge with a freshly reset hold timer. -/
theorem claim_C7_witness :
    (fixedPhysics c7wState holdEnv FIXED_DT).bind PState.vy =
      some (-(10623/1000)) ∧ (-(10623 : ℚ)/1000) ≠ -16 :=
  claim_C7_robot_charge.2 c7wState holdEnv rfl rfl rfl rfl rfl rfl rfl rfl

/-! ## Claim C8 -/

theorem modeLookup_ufo : modeLookup "ufo" = some ufoEntry := rfl

theorem yPass_vy_result (x y vy w h : JSNum) (objs : List Obj) (r : JSNum)
    (hr : (yPass x y vy w h objs).2.1 = r) : r = vy ∨ r = some 0 := by
  rcases yPass_vy_cases x y vy w h objs with hc | hc
  · exact Or.inl (hr.symm.trans hc)
  · exact Or.inr (hr.symm.trans hc)

/-- Claim C8: in ufo mode, for a nonnegative speed multiplier `m`, any
numeric `vy` at the end of a tick satisfies `|vy| ≤ vyClamp * m` with
`vyClamp = 8` (the table value for ufo): the clamp runs inside the mode
switch and the only later `vy` mutation is the Y resolve setting
`vy = 0`, which also satisfies the bound. -/
theorem claim_C8_ufo_clamp (s : PState) (env : Env) (dt : ℚ) (m v : ℚ)
    (hm : s.mode = "ufo") (hsp : env.speedMult = some m) (hmpos : 0 ≤ m)
    (hv : (fixedPhysics s env dt).bind PState.vy = some v) :
    |v| ≤ 8 * m := by
  simp only [fixedPhysics, hm, modeLookup_ufo, Option.map_some',
    Option.some_bind, tickWith, updateCollisions, apply_ite PState.vy,
    ite_self] at hv
  rcases yPass_vy_result _ _ _ _ _ _ (some v) hv with hc | hc
  · simp only [modeStep, hm, show (("ufo" : String) == "cube") = false from rfl,
      show (("ufo" : String) == "ship") = false from rfl,
      show (("ufo" : String) == "swing") = false from rfl,
      show (("ufo" : String) == "ball") = false from rfl,
      show (("ufo" : String) == "ufo") = true from rfl,
      Bool.false_eq_true, Bool.or_self, if_false, if_true, hsp,
      jmul_some, jneg_some] at hc
    have h8 : |v| ≤ 8.0 * m :=
      jclamp_abs _ (8.0 * m) (by positivity) v hc.symm
    calc |v| ≤ 8.0 * m := h8
      _ = 8 * m := by norm_num
  · have hv0 : v = 0 := by
      simpa using hc
    rw [hv0]
    simp only [abs_zero]
    positivity

/-- Claim C8 (witness): a concrete ufo tick entering with `vy = 100`
and speed multiplier 1 leaves the tick with `vy = 8`, within the bound. -/
theorem claim_C8_witness :
    (fixedPhysics c8State quietEnv FIXED_DT).bind PState.vy = some 8 ∧
      |(8 : ℚ)| ≤ 8 * 1 := by
  have hEval : (fixedPhysics c8State quietEnv FIXED_DT).bind PState.vy =
      some 8 := by
    have h : (fixedPhysics c8State quietEnv FIXED_DT).bind PState.vy =
        some (max (-(8.0 * 1)) (min (8.0 * 1) (100 + 0.40 * 1 * 1 * FIXED_DT))) := rfl
    rw [h, min_eq_left (by norm_num [FIXED_DT, PHYSICS_FPS]),
      max_eq_right (by norm_num)]
    norm_num
  exact ⟨hEval,
    claim_C8_ufo_clamp c8State quietEnv FIXED_DT 1 8 rfl rfl (by norm_num) hEval⟩

/-! ## Claim C9 -/

/-- Claim C9 (counterexample): a trail of 25 samples stays at 25 samples
after a tick — `trail.shift(); trail.push(...)` (script.js 299-300)
keeps the length and never truncates to the claimed capacity 20 (nor 5
for wave; `trailLen` is unused in this path). -/
theorem claim_C9_counterexample :
    (fixedPhysics c9State quietEnv FIXED_DT).map
        (fun s2 => s2.trail.length) = some 25 ∧ ¬ (25 ≤ 20) := by
  constructor
  · rfl
  · norm_num

/-- Claim C9 (amended): every tick removes the *oldest* sample from the
front of the trail and appends the current (position, rotation) sample
at the *back* (newest last, not front), leaving the length unchanged
(an empty trail grows to one sample); no capacity truncation happens. -/
theorem claim_C9_trail_shift_push (s : PState) (env : Env) (dt : ℚ) :
    (fixedPhysics s env dt).map PState.trail =
      (fixedPhysics s env dt).map
        (fun s2 => s.trail.tail ++ [(s2.x, s2.y, s2.rotation)]) := by
  cases hl : modeLookup s.mode with
  | none => simp [fixedPhysics, hl]
  | some e =>
    simp only [fixedPhysics, hl, Option.map_some', Option.some.injEq]
    simp only [tickWith, updateCollisions]
    split <;> rfl

/-! ## Claim C10 -/

/-- Claim C10: a normal-size spider tick without a press edge (and with
no colliders) leaves `flipDirection` unchanged and replaces `vy` by
`0.92 * vy` (spider gravity is 0 so the gravity step adds nothing); in
magnitude, `|vy|` is scaled by exactly 0.92 and hence never grows. -/
theorem claim_C10_spider_decay (s : PState) (env : Env) (dt : ℚ) (v f : ℚ)
    (hm : s.mode = "spider") (hmini : s.mini = false)
    (hjp : (env.inputNow && !s.lastInput) = false)
    (hvy : s.vy = some v) (hfl : s.flipY = some f)
    (hc : env.candidates = []) :
    (fixedPhysics s env dt).bind PState.vy = some (0.92 * v) ∧
      (fixedPhysics s env dt).map PState.flipY = some s.flipY ∧
      |0.92 * v| = 0.92 * |v| ∧ |0.92 * v| ≤ |v| := by
  obtain ⟨sx, sy, svx, svy, srot, sfl, smini, smir, smode, slast, shold,
    sog, stime, strail⟩ := s
  obtain ⟨einput, espeed, ecand, eatan, esin⟩ := env
  dsimp only at hm hmini hjp hvy hfl hc ⊢
  subst hm hmini hvy hfl hc
  have habs1 : |0.92 * v| = 0.92 * |v| := by
    rw [abs_mul, abs_of_pos (by norm_num : (0 : ℚ) < 0.92)]
  have habs2 : |0.92 * v| ≤ |v| := by
    rw [habs1]
    nlinarith [abs_nonneg v]
  cases einput
  · cases slast
    · refine ⟨?_, rfl, habs1, habs2⟩
      show some ((v + 0.0 * 1 * f * dt) * 0.92) = some (0.92 * v)
      simp only [Option.some.injEq]
      ring
    · refine ⟨?_, rfl, habs1, habs2⟩
      show some ((v + 0.0 * 1 * f * dt) * 0.92) = some (0.92 * v)
      simp only [Option.some.injEq]
      ring
  · cases slast
    · exact absurd hjp (by simp)
    · refine ⟨?_, rfl, habs1, habs2⟩
      show some ((v + 0.0 * 1 * f * dt) * 0.92) = some (0.92 * v)
      simp only [Option.some.injEq]
      ring

/-- Claim C10 (witness): the decay law at a concrete spider state with
`vy = 10` and flip +1 on a quiet tick. -/
theorem claim_C10_witness :
    (fixedPhysics c10State quietEnv FIXED_DT).bind PState.vy =
        some (0.92 * 10) ∧
      (fixedPhysics c10State quietEnv FIXED_DT).map PState.flipY =
        some c10State.flipY ∧
      |0.92 * (10 : ℚ)| = 0.92 * |(10 : ℚ)| ∧
      |0.92 * (10 : ℚ)| ≤ |(10 : ℚ)| :=
  claim_C10_spider_decay c10State quietEnv FIXED_DT 10 1 rfl rfl rfl rfl rfl rfl
